import Mathlib

/-!
Shallow embedding of `src/index.ts` (SOH-Auto): a scheduled pipeline that
fetches ISS telemetry, downloads a NASA GIBS map image for yesterday's date,
composes a weekday-keyed status message, and posts it to a Facebook page.

Modelling conventions:
- The process timezone is UTC (the deployment target is a GitHub Actions
  runner); `new Date()` is modelled by an explicit `DateTime` parameter, so
  JavaScript's local-time `getDate`/`setDate` coincide with the UTC calendar.
- JavaScript numbers carrying telemetry are modelled as fixed-point integers
  in micro-units (the real value times 10^6); `Number.prototype.toFixed`
  is modelled by exact decimal rounding (ties away from zero on the
  magnitude, as in the ECMAScript algorithm).
- Network calls are modelled by passing each call's transport outcome
  (`HttpOutcome`) as an explicit input; `axios` resolves on 2xx statuses and
  rejects otherwise with the message `Request failed with status code N`.
- Strings are Lean `String`s; `String.prototype.replace` with a single-char
  pattern and `URLSearchParams.get` are modelled character-exactly below.
-/

/-- A calendar date (proleptic Gregorian, year as a natural number). -/
structure Date where
  year : Nat
  month : Nat
  day : Nat
deriving DecidableEq

/-- An instant broken into UTC calendar and clock fields, as exposed by the
JavaScript `Date` accessors (milliseconds included). -/
structure DateTime where
  year : Nat
  month : Nat
  day : Nat
  hour : Nat
  minute : Nat
  second : Nat
  ms : Nat
deriving DecidableEq

/-- The calendar date of an instant. -/
def dateOf (t : DateTime) : Date :=
  ⟨t.year, t.month, t.day⟩

/-- Gregorian leap-year rule, as implemented by the JavaScript `Date`
calendar. -/
def isLeapYear (y : Nat) : Bool :=
  (y % 4 = 0 && y % 100 ≠ 0) || y % 400 = 0

/-- Number of days in a month of the Gregorian calendar. -/
def daysInMonth (y m : Nat) : Nat :=
  if m = 2 then (if isLeapYear y then 29 else 28)
  else if m = 4 ∨ m = 6 ∨ m = 9 ∨ m = 11 then 30
  else 31

/-- A well-formed calendar date (month in range, day in range for the month,
year at least 1). -/
def ValidDate (d : Date) : Prop :=
  1 ≤ d.year ∧ 1 ≤ d.month ∧ d.month ≤ 12 ∧ 1 ≤ d.day ∧ d.day ≤ daysInMonth d.year d.month

instance (d : Date) : Decidable (ValidDate d) := by
  unfold ValidDate; infer_instance

/-- The calendar day before `d`: the normalisation JavaScript performs for
`yesterday.setDate(yesterday.getDate() - 1)` (line 45 of the source), with
day 0 of a month resolving to the last day of the previous month and
January rolling back to December of the previous year. -/
def predDay (d : Date) : Date :=
  if 1 < d.day then ⟨d.year, d.month, d.day - 1⟩
  else if 1 < d.month then ⟨d.year, d.month - 1, daysInMonth d.year (d.month - 1)⟩
  else ⟨d.year - 1, 12, 31⟩

/-- Modelled from the spec: the calendar successor of a date ("one calendar
day before" read forwards). Used only to state that the date embedded by
`getMapUrl` is exactly the predecessor of the run date. -/
def nextDay (d : Date) : Date :=
  if d.day < daysInMonth d.year d.month then ⟨d.year, d.month, d.day + 1⟩
  else if d.month < 12 then ⟨d.year, d.month + 1, 1⟩
  else ⟨d.year + 1, 1, 1⟩

/-- Decimal digit characters. -/
def digitsList : List Char :=
  ['0', '1', '2', '3', '4', '5', '6', '7', '8', '9']

/-- The character for a single decimal digit. -/
def digitChar : Nat → Char
  | 0 => '0'
  | 1 => '1'
  | 2 => '2'
  | 3 => '3'
  | 4 => '4'
  | 5 => '5'
  | 6 => '6'
  | 7 => '7'
  | 8 => '8'
  | _ => '9'

/-- Fuelled decimal rendering of a natural number (most significant digit
first), accumulating into `acc`. The fuel is only a structural-recursion
device; `natChars` always supplies enough. -/
def natCharsCore : Nat → Nat → List Char → List Char
  | 0, _, acc => acc
  | fuel + 1, n, acc =>
    if n < 10 then digitChar n :: acc
    else natCharsCore fuel (n / 10) (digitChar (n % 10) :: acc)

/-- Decimal digit characters of a natural number. -/
def natChars (n : Nat) : List Char :=
  natCharsCore (n + 1) n []

/-- Decimal string of a natural number (models JavaScript number-to-string
for non-negative integers). -/
def natStr (n : Nat) : String :=
  String.mk (natChars n)

/-- Left-pad the decimal rendering of `n` with zeros to width `w` (the
padding JavaScript's `toISOString` applies to each calendar/clock field). -/
def padLeft (w n : Nat) : String :=
  String.mk (List.replicate (w - (natChars n).length) '0' ++ natChars n)

/-- The `YYYY-MM-DD` date component of `Date.prototype.toISOString`. -/
def formatDate (d : Date) : String :=
  padLeft 4 d.year ++ "-" ++ padLeft 2 d.month ++ "-" ++ padLeft 2 d.day

/-- The `HH:MM:SS.mmm` clock component of `Date.prototype.toISOString`. -/
def isoTime (t : DateTime) : String :=
  padLeft 2 t.hour ++ ":" ++ padLeft 2 t.minute ++ ":" ++ padLeft 2 t.second
    ++ "." ++ padLeft 3 t.ms

/-- `Date.prototype.toISOString`: `YYYY-MM-DDTHH:MM:SS.mmmZ`. -/
def toISOString (t : DateTime) : String :=
  formatDate (dateOf t) ++ "T" ++ isoTime t ++ "Z"

/-- Replace the first occurrence of the character `c` in a character list by
the list `r` (the semantics of JavaScript `String.prototype.replace` with a
single-character pattern). -/
def replaceFirstChar : List Char → Char → List Char → List Char
  | [], _, _ => []
  | x :: xs, c, r => if x = c then r ++ xs else x :: replaceFirstChar xs c r

/-- JavaScript `s.replace(c, r)` for a single-character pattern `c`. -/
def jsReplaceChar (s : String) (c : Char) (r : String) : String :=
  String.mk (replaceFirstChar s.data c r.data)

/-- The timestamp rendering of the source (line 68):
`now.toISOString().replace('T', ' ').replace('Z', ' UTC')`. -/
def formatUtc (t : DateTime) : String :=
  jsReplaceChar (jsReplaceChar (toISOString t) 'T' " ") 'Z' " UTC"

/-- Take characters up to (excluding) the first occurrence of `stop`. -/
def takeUntilChar (stop : Char) : List Char → List Char
  | [] => []
  | c :: r => if c = stop then [] else c :: takeUntilChar stop r

/-- JavaScript `s.split('T')[0]` (line 46 of the source): everything before
the first `T`. -/
def jsSplitTHead (s : String) : String :=
  String.mk (takeUntilChar 'T' s.data)

/-- The instant the source names `yesterday` (line 44-45): the run instant
with its calendar date stepped back one day by `setDate(getDate() - 1)`,
clock fields untouched. -/
def yesterdayOf (t : DateTime) : DateTime :=
  let d := predDay (dateOf t)
  ⟨d.year, d.month, d.day, t.hour, t.minute, t.second, t.ms⟩

/-- The fixed WMS query text preceding the `TIME` value in `getMapUrl`. -/
def urlPre : String :=
  "https://gibs.earthdata.nasa.gov/wms/epsg4326/best/wms.cgi?SERVICE=WMS&REQUEST=GetMap&VERSION=1.3.0&LAYERS=MODIS_Terra_CorrectedReflectance_TrueColor&CRS=EPSG:4326&STYLES=&FORMAT=image/jpeg&TIME="

/-- The fixed WMS query text following the `TIME` value in `getMapUrl`. -/
def urlPost : String :=
  "&BBOX=-180,-90,180,90&WIDTH=4096&HEIGHT=2048"

/-- `getMapUrl` (source lines 43-48): build the imagery URL whose `TIME`
query parameter is the date component of yesterday's ISO timestamp. -/
def getMapUrl (now : DateTime) : String :=
  urlPre ++ jsSplitTHead (toISOString (yesterdayOf now)) ++ urlPost

/-- Does the character list start with `TIME=`? (Only the first five
characters matter.) -/
def matchTIME (l : List Char) : Bool :=
  l.take 5 == ['T', 'I', 'M', 'E', '=']

/-- Scan for the first occurrence of `TIME=` and return the characters that
follow it up to the next `&` or the end of the input. -/
def findTIME : List Char → Option (List Char)
  | [] => none
  | c :: rest =>
    if matchTIME (c :: rest) then some (takeUntilChar '&' ((c :: rest).drop 5))
    else findTIME rest

/-- `new URL(u).searchParams.get('TIME')` (source lines 72-73), modelled for
URLs of the shape `getMapUrl` produces: the value of the first `TIME=`
parameter, undecoded, or `none` when absent. -/
def extractTimeParam (u : String) : Option String :=
  (findTIME u.data).map String.mk

/-- A JavaScript telemetry number in fixed-point micro-units: `micro x`
represents the real value `x / 10^6`. -/
structure JsNum where
  micro : Int
deriving DecidableEq

/-- `Number.prototype.toFixed` on a micro-unit fixed-point value: the
ECMAScript rounding (split off the sign, round the magnitude scaled by
`10^d` with ties away from zero) followed by decimal rendering with `d`
digits after the point (no point when `d = 0`). -/
def jsToFixed (x : JsNum) (d : Nat) : String :=
  let sign := if x.micro < 0 then "-" else ""
  let n : Nat := (x.micro.natAbs * 10 ^ d + 500000) / 1000000
  if d = 0 then sign ++ natStr n
  else sign ++ natStr (n / 10 ^ d) ++ "." ++ padLeft d (n % 10 ^ d)

/-- The `ISSData` interface of the source (lines 17-23). -/
structure ISSData where
  latitude : JsNum
  longitude : JsNum
  altitude : JsNum
  velocity : JsNum
  visibility : String
deriving DecidableEq

/-- The light-condition selection of line 82: the sunlight phrase exactly on
the literal `daylight`, the shadow phrase otherwise. -/
def lightPhrase (v : String) : String :=
  if v = "daylight" then "bathed in sunlight ☀️"
  else "passing through Earth\x27s shadow 🌑"

/-- The `coords` slot of line 79. -/
def coordsOf (data : ISSData) : String :=
  jsToFixed data.latitude 2 ++ "°N, " ++ jsToFixed data.longitude 2 ++ "°E"

/-- The `baseInfo` slot of line 84. -/
def baseInfoOf (data : ISSData) : String :=
  "I\x27m over " ++ coordsOf data ++ " at ~" ++ (jsToFixed data.altitude 0 ++ " km")
    ++ ", moving " ++ (jsToFixed data.velocity 0 ++ " km/h") ++ ". Currently "
    ++ lightPhrase data.visibility ++ "."

/-- The `imageNote` slot of line 85: cites the `TIME` parameter extracted
from the map URL, falling back to `unknown` when absent. -/
def imageNoteOf (mapUrl : String) : String :=
  "View: NASA GIBS MODIS Terra True Color (TIME="
    ++ ((extractTimeParam mapUrl).getD "unknown") ++ ")"

/-- The weekday index of a date by Zeller's congruence (0 = Saturday,
1 = Sunday, ..., 6 = Friday); models the calendar underlying
`Intl.DateTimeFormat('en-US', { weekday: 'long' })` with a UTC process
timezone. -/
def zellerIdx (d : Date) : Nat :=
  let m := if d.month ≤ 2 then d.month + 12 else d.month
  let y := if d.month ≤ 2 then d.year - 1 else d.year
  (d.day + 13 * (m + 1) / 5 + y % 100 + y % 100 / 4 + y / 100 / 4 + 5 * (y / 100)) % 7

/-- The long English weekday name of a date (line 88 of the source). -/
def weekdayName (d : Date) : String :=
  match zellerIdx d with
  | 0 => "Saturday"
  | 1 => "Sunday"
  | 2 => "Monday"
  | 3 => "Tuesday"
  | 4 => "Wednesday"
  | 5 => "Thursday"
  | _ => "Friday"

/-- The weekday-keyed message table of lines 89-98 together with the
`?? fallback` of line 100: each branch is the corresponding template
literal of the source, the final branch the generic fallback. -/
def templateFor (w utc b note : String) : String :=
  if w = "Sunday" then
    "Hi from the ISS — " ++ utc ++ ". " ++ b ++ " Taking a breather and enjoying the view. " ++ note ++ " (ISS = International Space Station) #ISS #Space #NASA"
  else if w = "Monday" then
    "Hi from the ISS — " ++ utc ++ ". " ++ b ++ " Kicked off the week with a research run. Here\x27s the scene below. " ++ note ++ " (ISS = International Space Station) #ISS #Space #NASA"
  else if w = "Tuesday" then
    "Hi from the ISS — " ++ utc ++ ". " ++ b ++ " Running experiments and watching the sunrise sweep across continents. " ++ note ++ " (ISS = International Space Station) #ISS #Space #NASA"
  else if w = "Wednesday" then
    "Hi from the ISS — " ++ utc ++ ". " ++ b ++ " Midweek check-in from orbit — science, maintenance, and sweeping views. " ++ note ++ " (ISS = International Space Station) #ISS #Space #NASA"
  else if w = "Thursday" then
    "Hi from the ISS — " ++ utc ++ ". " ++ b ++ " Preparing gear and sharing this snapshot from above. " ++ note ++ " (ISS = International Space Station) #ISS #Space #NASA"
  else if w = "Friday" then
    "Hi from the ISS — " ++ utc ++ ". " ++ b ++ " Wrapping up a busy week onboard — enjoy this view. " ++ note ++ " (ISS = International Space Station) #ISS #Space #NASA"
  else if w = "Saturday" then
    "Hi from the ISS — " ++ utc ++ ". " ++ b ++ " Weekend vibes above Earth — peaceful and busy all at once. " ++ note ++ " (ISS = International Space Station) #ISS #Space #NASA"
  else
    "Hi from the ISS — " ++ utc ++ ". " ++ b ++ " " ++ note ++ " (ISS = International Space Station) #ISS #Space #NASA"

/-- `createPostMessage` (source lines 66-100). The ambient `new Date()` is
the explicit `now` parameter and the module-level `MAP_URL` the explicit
`mapUrl` parameter. -/
def createPostMessage (data : ISSData) (mapUrl : String) (now : DateTime) : String :=
  templateFor (weekdayName (dateOf now)) (formatUtc now) (baseInfoOf data)
    (imageNoteOf mapUrl)

/-- The outcome of one HTTP request as the transport presents it to `axios`:
either a transport-level failure (connection error, timeout, ...) carrying
the error message, or a response with a status code and a body. -/
inductive HttpOutcome (α : Type) where
  | transportError (msg : String)
  | response (status : Nat) (body : α)
deriving DecidableEq

/-- `axios` request resolution: a 2xx response resolves with its body; any
other status rejects with `Request failed with status code N`; transport
failures reject with their own message. -/
def axiosGet {α : Type} (o : HttpOutcome α) : Except String α :=
  match o with
  | .transportError m => .error m
  | .response s b =>
    if 200 ≤ s ∧ s < 300 then .ok b
    else .error ("Request failed with status code " ++ natStr s)

/-- The raw JSON body of the telemetry endpoint as a value: every field of
the `ISSData` interface may be absent, since nothing checks the payload. -/
structure RawTele where
  latitude : Option JsNum
  longitude : Option JsNum
  altitude : Option JsNum
  velocity : Option JsNum
  visibility : Option String
deriving DecidableEq

/-- `fetchISSData` (source lines 25-36): await the `axios.get`, return
`response.data` as-is on success, and wrap any rejection in
`Failed to fetch ISS data: <cause>`. The body type is a parameter because
the source performs no validation of the payload whatsoever. -/
def fetchISSData {α : Type} (o : HttpOutcome α) : Except String α :=
  match axiosGet o with
  | .ok d => .ok d
  | .error m => .error ("Failed to fetch ISS data: " ++ m)

/-- `fetchMapImage` (source lines 57-64): download the URL and write the
bytes to `nasa-map.jpg`, returning the path. There is no `try`/`catch`, so
a rejection propagates with its original message. -/
def fetchMapImage {α : Type} (url : String) (o : HttpOutcome α) : Except String String :=
  match axiosGet o with
  | .ok _ => .ok "nasa-map.jpg"
  | .error m => .error m

/-- `postToFacebook` (source lines 102-119): one multipart upload; any
rejection is wrapped in `Facebook post failed: <cause>`. -/
def postToFacebook (o : HttpOutcome Unit) : Except String Unit :=
  match axiosGet o with
  | .ok _ => .ok ()
  | .error m => .error ("Facebook post failed: " ++ m)

/-- Observable trace of one run of `main`: which stages were invoked, the
URL handed to the image download, the composed message, and the final
outcome. -/
structure RunTrace where
  teleCalled : Bool
  imgCalled : Bool
  pubCalled : Bool
  urlDownloaded : Option String
  message : Option String
  outcome : Except String Unit

/-- `mainRun` models `main` (source lines 121-136; Lean reserves the name
`main` for executables): the `try` block awaits
`fetchISSData`, `fetchMapImage(MAP_URL)`, `createPostMessage`,
`postToFacebook` in sequence; the first rejection skips every later stage
and is the run's failure. The three transport outcomes and the run instant
are the explicit inputs; `MAP_URL` is `getMapUrl` at the run instant. -/
def mainRun (teleT : HttpOutcome ISSData) (imgT : HttpOutcome Unit)
    (pubT : HttpOutcome Unit) (now : DateTime) : RunTrace :=
  match fetchISSData teleT with
  | .error e => ⟨true, false, false, none, none, .error e⟩
  | .ok data =>
    match fetchMapImage (getMapUrl now) imgT with
    | .error e => ⟨true, true, false, some (getMapUrl now), none, .error e⟩
    | .ok _path =>
      let msg := createPostMessage data (getMapUrl now) now
      match postToFacebook pubT with
      | .error e => ⟨true, true, true, some (getMapUrl now), some msg, .error e⟩
      | .ok _ => ⟨true, true, true, some (getMapUrl now), some msg, .ok ()⟩

/-- The string `slot` occurs contiguously inside `msg`. -/
def ContainsSlot (msg slot : String) : Prop :=
  ∃ a b : String, msg = a ++ slot ++ b

/-- Does `pat` start the list `l`? -/
def isPre : List Char → List Char → Bool
  | [], _ => true
  | _ :: _, [] => false
  | a :: as, b :: bs => a == b && isPre as bs

/-- Does `pat` occur contiguously in `l`? -/
def hasSub (pat : List Char) : List Char → Bool
  | [] => isPre pat []
  | c :: r => isPre pat (c :: r) || hasSub pat r

/-- Decidable substring test on strings. -/
def containsSub (hay needle : String) : Bool :=
  hasSub needle.data hay.data

/-- The error value `r` wraps `cause` in a longer, descriptive message:
`cause` occurs in the message but the message is more than `cause` alone. -/
def isWrappedBy (msg cause : String) : Bool :=
  containsSub msg cause && msg != cause

lemma digitChar_mem_digitsList (n : Nat) : digitChar n ∈ digitsList := by
  unfold digitChar
  split <;> decide

lemma natCharsCore_mem {fuel n : Nat} {acc : List Char} {c : Char}
    (h : c ∈ natCharsCore fuel n acc) : c ∈ digitsList ∨ c ∈ acc := by
  induction fuel generalizing n acc with
  | zero => exact Or.inr h
  | succ fuel ih =>
    rw [natCharsCore] at h
    split at h
    · rcases List.mem_cons.mp h with h | h
      · exact Or.inl (h ▸ digitChar_mem_digitsList n)
      · exact Or.inr h
    · rcases ih h with h | h
      · exact Or.inl h
      · rcases List.mem_cons.mp h with h | h
        · exact Or.inl (h ▸ digitChar_mem_digitsList (n % 10))
        · exact Or.inr h

lemma natChars_mem {n : Nat} {c : Char} (h : c ∈ natChars n) : c ∈ digitsList := by
  rcases natCharsCore_mem h with h | h
  · exact h
  · simp at h

lemma padLeft_mem {w n : Nat} {c : Char} (h : c ∈ (padLeft w n).data) :
    c ∈ digitsList := by
  unfold padLeft at h
  rcases List.mem_append.mp h with h | h
  · rw [List.eq_of_mem_replicate h]; decide
  · exact natChars_mem h

lemma natCharsCore_length (fuel n w : Nat) (acc : List Char)
    (hn : n < 10 ^ w) (hw : 1 ≤ w) :
    (natCharsCore fuel n acc).length ≤ w + acc.length := by
  induction fuel generalizing n w acc with
  | zero => simp [natCharsCore]
  | succ fuel ih =>
    rw [natCharsCore]
    split
    · simp; omega
    · rename_i hn10
      have hw2 : 2 ≤ w := by
        by_contra hlt
        have : w = 1 := by omega
        subst this
        simp at hn
        omega
      have hdiv : n / 10 < 10 ^ (w - 1) := by
        rw [Nat.div_lt_iff_lt_mul (by omega)]
        calc n < 10 ^ w := hn
        _ = 10 ^ (w - 1) * 10 := by
              rw [← pow_succ]
              congr 1
              omega
      have := ih (n / 10) (w - 1) (digitChar (n % 10) :: acc) hdiv (by omega)
      simp at this ⊢
      omega

lemma natChars_length {n w : Nat} (hn : n < 10 ^ w) (hw : 1 ≤ w) :
    (natChars n).length ≤ w := by
  have := natCharsCore_length (n + 1) n w [] hn hw
  simpa [natChars] using this

lemma padLeft_length {w n : Nat} (hn : n < 10 ^ w) (hw : 1 ≤ w) :
    (padLeft w n).length = w := by
  have hle := natChars_length hn hw
  simp [padLeft, String.length]
  omega

lemma formatDate_mem {d : Date} {c : Char} (h : c ∈ (formatDate d).data) :
    c ∈ digitsList ∨ c = '-' := by
  simp only [formatDate, String.data_append] at h
  rcases List.mem_append.mp h with h | h
  · rcases List.mem_append.mp h with h | h
    · rcases List.mem_append.mp h with h | h
      · rcases List.mem_append.mp h with h | h
        · exact Or.inl (padLeft_mem h)
        · simp at h; exact Or.inr h
      · exact Or.inl (padLeft_mem h)
    · simp at h; exact Or.inr h
  · exact Or.inl (padLeft_mem h)

lemma isoTime_mem {t : DateTime} {c : Char} (h : c ∈ (isoTime t).data) :
    c ∈ digitsList ∨ c = ':' ∨ c = '.' := by
  simp only [isoTime, String.data_append] at h
  simp only [List.mem_append] at h
  rcases h with (((((h | h) | h) | h) | h) | h) | h
  · exact Or.inl (padLeft_mem h)
  · simp at h; tauto
  · exact Or.inl (padLeft_mem h)
  · simp at h; tauto
  · exact Or.inl (padLeft_mem h)
  · simp at h; tauto
  · exact Or.inl (padLeft_mem h)

lemma digit_ne_of_mem {c x : Char} (h : c ∈ digitsList)
    (hx : x ∈ ['T', 'Z', '&', '-', ':', '.', ' ']) : c ≠ x := by
  fin_cases h <;> fin_cases hx <;> decide

lemma replaceFirstChar_append {l₁ l₂ : List Char} {c : Char} {r : List Char}
    (h : c ∉ l₁) :
    replaceFirstChar (l₁ ++ l₂) c r = l₁ ++ replaceFirstChar l₂ c r := by
  induction l₁ with
  | nil => rfl
  | cons x xs ih =>
    simp only [List.mem_cons, not_or] at h
    have hx : x ≠ c := fun he => h.1 he.symm
    simp [replaceFirstChar, hx, ih h.2]

lemma takeUntilChar_append {l₁ l₂ : List Char} {stop : Char}
    (h : stop ∉ l₁) :
    takeUntilChar stop (l₁ ++ stop :: l₂) = l₁ := by
  induction l₁ with
  | nil => simp [takeUntilChar]
  | cons x xs ih =>
    simp only [List.mem_cons, not_or] at h
    have hx : x ≠ stop := fun he => h.1 he.symm
    simp [takeUntilChar, hx, ih h.2]

lemma formatDate_not_mem {d : Date} {x : Char}
    (hx : x ∈ (['T', 'Z', '&', ':', '.', ' '] : List Char)) :
    x ∉ (formatDate d).data := by
  intro hmem
  have hx7 : x ∈ (['T', 'Z', '&', '-', ':', '.', ' '] : List Char) := by
    fin_cases hx <;> decide
  rcases formatDate_mem hmem with h | h
  · exact digit_ne_of_mem h hx7 rfl
  · subst h
    exact absurd hx (by decide)

lemma isoTime_not_mem {t : DateTime} {x : Char}
    (hx : x ∈ (['T', 'Z', '&', ' '] : List Char)) :
    x ∉ (isoTime t).data := by
  intro hmem
  have hx7 : x ∈ (['T', 'Z', '&', '-', ':', '.', ' '] : List Char) := by
    fin_cases hx <;> decide
  rcases isoTime_mem hmem with h | h | h
  · exact digit_ne_of_mem h hx7 rfl
  · subst h; exact absurd hx (by decide)
  · subst h; exact absurd hx (by decide)

lemma jsSplitTHead_toISOString (t : DateTime) :
    jsSplitTHead (toISOString t) = formatDate (dateOf t) := by
  unfold jsSplitTHead toISOString
  have hdata : ((formatDate (dateOf t) ++ "T" ++ isoTime t ++ "Z")).data
      = (formatDate (dateOf t)).data ++ 'T' :: ((isoTime t).data ++ ['Z']) := by
    simp [String.data_append]
  rw [hdata, takeUntilChar_append (formatDate_not_mem (by decide))]

lemma getMapUrl_eq (now : DateTime) :
    getMapUrl now = urlPre ++ formatDate (predDay (dateOf now)) ++ urlPost := by
  unfold getMapUrl
  rw [jsSplitTHead_toISOString]
  rfl

lemma nextDay_predDay {d : Date} (h : ValidDate d) : nextDay (predDay d) = d := by
  obtain ⟨hy, hm1, hm12, hd1, hdm⟩ := h
  unfold predDay
  rcases d with ⟨y, m, day⟩
  simp only at hy hm1 hm12 hd1 hdm ⊢
  by_cases hday : 1 < day
  · rw [if_pos hday]
    unfold nextDay
    simp only
    rw [if_pos (by omega)]
    simp
    omega
  · rw [if_neg hday]
    have hday1 : day = 1 := by omega
    subst hday1
    by_cases hm : 1 < m
    · rw [if_pos hm]
      unfold nextDay
      simp only
      rw [if_neg (by omega), if_pos (by omega)]
      simp
      omega
    · have hm1' : m = 1 := by omega
      subst hm1'
      rw [if_neg (by omega)]
      unfold nextDay
      simp only
      have h31 : daysInMonth (y - 1) 12 = 31 := by simp [daysInMonth]
      rw [if_neg (by omega), if_neg (by omega)]
      simp
      omega

lemma replaceFirstChar_cons_self (c : Char) (xs r : List Char) :
    replaceFirstChar (c :: xs) c r = r ++ xs := by
  simp [replaceFirstChar]

lemma string_mk_data (l : List Char) : (String.mk l).data = l := rfl

lemma formatUtc_eq (t : DateTime) :
    formatUtc t = formatDate (dateOf t) ++ " " ++ isoTime t ++ " UTC" := by
  apply String.ext
  unfold formatUtc jsReplaceChar toISOString
  simp only [string_mk_data]
  have h1 : (formatDate (dateOf t) ++ "T" ++ isoTime t ++ "Z").data
      = (formatDate (dateOf t)).data ++ 'T' :: ((isoTime t).data ++ ['Z']) := by
    simp [String.data_append]
  rw [h1]
  rw [replaceFirstChar_append (formatDate_not_mem (x := 'T') (by decide))]
  rw [replaceFirstChar_cons_self]
  have h2 : (formatDate (dateOf t)).data ++ ((" " : String).data ++ ((isoTime t).data ++ ['Z']))
      = ((formatDate (dateOf t)).data ++ (' ' :: (isoTime t).data)) ++ 'Z' :: ([] : List Char) := by
    simp
  rw [h2]
  have hne : 'Z' ∉ (formatDate (dateOf t)).data ++ (' ' :: (isoTime t).data) := by
    intro hmem
    rcases List.mem_append.mp hmem with h | h
    · exact formatDate_not_mem (x := 'Z') (by decide) h
    · rcases List.mem_cons.mp h with h | h
      · exact absurd h (by decide)
      · exact isoTime_not_mem (x := 'Z') (by decide) h
  rw [replaceFirstChar_append hne, replaceFirstChar_cons_self]
  simp [String.data_append]

/-- The text of `urlPre` before its final `TIME=`; the scanning lemmas
below step `findTIME` across it. -/
def scanPre : String :=
  "https://gibs.earthdata.nasa.gov/wms/epsg4326/best/wms.cgi?SERVICE=WMS&REQUEST=GetMap&VERSION=1.3.0&LAYERS=MODIS_Terra_CorrectedReflectance_TrueColor&CRS=EPSG:4326&STYLES=&FORMAT=image/jpeg&"

/-- `TIME=` matches at no position of `pre` even when `pre` is followed by
further text beginning with `look` (four characters of lookahead are enough
for a five-character pattern after at least one character of `pre`). -/
def scanClean : List Char → List Char → Bool
  | [], _ => true
  | c :: r, look => !matchTIME (c :: (r ++ look)) && scanClean r look

lemma matchTIME_lookahead (c : Char) (r post : List Char) :
    matchTIME (c :: (r ++ post)) = matchTIME (c :: (r ++ post.take 4)) := by
  unfold matchTIME
  rw [List.take_succ_cons, List.take_succ_cons,
    List.take_append_eq_append_take, List.take_append_eq_append_take,
    List.take_take, Nat.min_eq_left (by omega)]

lemma findTIME_skip {pre post : List Char}
    (h : scanClean pre (post.take 4) = true) :
    findTIME (pre ++ post) = findTIME post := by
  induction pre with
  | nil => rfl
  | cons c r ih =>
    rw [scanClean, Bool.and_eq_true, Bool.not_eq_true'] at h
    rw [List.cons_append, findTIME, matchTIME_lookahead, h.1]
    simp only [Bool.false_eq_true, if_false]
    exact ih h.2

lemma findTIME_hit (rest : List Char) :
    findTIME ('T' :: 'I' :: 'M' :: 'E' :: '=' :: rest)
      = some (takeUntilChar '&' rest) := by
  rw [findTIME]
  have hm : matchTIME ('T' :: 'I' :: 'M' :: 'E' :: '=' :: rest) = true := by
    unfold matchTIME
    simp [List.take_succ_cons]
  rw [hm]
  simp

set_option maxRecDepth 40000

lemma extractTimeParam_getMapUrl (now : DateTime) :
    extractTimeParam (getMapUrl now) = some (formatDate (predDay (dateOf now))) := by
  rw [getMapUrl_eq]
  unfold extractTimeParam
  have hsplit : (urlPre ++ formatDate (predDay (dateOf now)) ++ urlPost).data
      = scanPre.data
        ++ ('T' :: 'I' :: 'M' :: 'E' :: '=' ::
            ((formatDate (predDay (dateOf now))).data ++ urlPost.data)) := by
    have hpre : urlPre = scanPre ++ "TIME=" := by decide
    rw [hpre]
    simp [String.data_append]
  rw [hsplit]
  have hclean : scanClean scanPre.data
      (List.take 4 ('T' :: 'I' :: 'M' :: 'E' :: '=' ::
        ((formatDate (predDay (dateOf now))).data ++ urlPost.data))) = true := by
    rw [show List.take 4 ('T' :: 'I' :: 'M' :: 'E' :: '=' ::
          ((formatDate (predDay (dateOf now))).data ++ urlPost.data))
        = ['T', 'I', 'M', 'E'] from rfl]
    decide
  rw [findTIME_skip hclean, findTIME_hit]
  have hpost : urlPost.data = '&' :: ("BBOX=-180,-90,180,90&WIDTH=4096&HEIGHT=2048" : String).data := by
    decide
  rw [hpost,
    takeUntilChar_append (formatDate_not_mem (x := '&') (by decide))]
  simp

/-- Modelled from the spec: the shared structural shell of every message
template — greeting with timestamp, telemetry summary, optional flourish
sentence, imagery citation, fixed suffix. -/
def flourishPart : Option String → String
  | some f => f ++ " "
  | none => ""

/-- Modelled from the spec: a message template as its shared slots plus an
optional flourish sentence. -/
def templateShell (utc b note : String) (fl : Option String) : String :=
  "Hi from the ISS — " ++ utc ++ ". " ++ b ++ " " ++ flourishPart fl ++ note
    ++ " (ISS = International Space Station) #ISS #Space #NASA"

/-- Modelled from the spec: the flourish sentence keyed to each recognised
weekday name, and none for anything else. -/
def flourishOf (w : String) : Option String :=
  if w = "Sunday" then some "Taking a breather and enjoying the view."
  else if w = "Monday" then some "Kicked off the week with a research run. Here\x27s the scene below."
  else if w = "Tuesday" then some "Running experiments and watching the sunrise sweep across continents."
  else if w = "Wednesday" then some "Midweek check-in from orbit — science, maintenance, and sweeping views."
  else if w = "Thursday" then some "Preparing gear and sharing this snapshot from above."
  else if w = "Friday" then some "Wrapping up a busy week onboard — enjoy this view."
  else if w = "Saturday" then some "Weekend vibes above Earth — peaceful and busy all at once."
  else none

/-- The seven recognised weekday names. -/
def weekdayNames : List String :=
  ["Sunday", "Monday", "Tuesday", "Wednesday", "Thursday", "Friday", "Saturday"]

lemma templateFor_shell (w utc b note : String) :
    templateFor w utc b note = templateShell utc b note (flourishOf w) := by
  unfold templateFor flourishOf
  split_ifs <;>
    (simp only [templateShell, flourishPart, String.append_assoc]; rfl)

lemma flourishOf_isSome_iff (w : String) :
    (flourishOf w).isSome = true ↔ w ∈ weekdayNames := by
  unfold flourishOf weekdayNames
  split_ifs with h1 h2 h3 h4 h5 h6 h7 <;> simp_all

lemma containsSlot_trans {m s t : String} (hms : ContainsSlot m s)
    (hst : ContainsSlot s t) : ContainsSlot m t := by
  obtain ⟨a, b, hab⟩ := hms
  obtain ⟨a2, b2, hab2⟩ := hst
  exact ⟨a ++ a2, b2 ++ b, by rw [hab, hab2]; simp [String.append_assoc]⟩

lemma templateShell_contains_base (utc b note : String) (fl : Option String) :
    ContainsSlot (templateShell utc b note fl) b := by
  refine ⟨"Hi from the ISS — " ++ utc ++ ". ",
    " " ++ flourishPart fl ++ note ++ " (ISS = International Space Station) #ISS #Space #NASA", ?_⟩
  simp [templateShell, String.append_assoc]

lemma templateShell_contains_note (utc b note : String) (fl : Option String) :
    ContainsSlot (templateShell utc b note fl) note := by
  refine ⟨"Hi from the ISS — " ++ utc ++ ". " ++ b ++ " " ++ flourishPart fl,
    " (ISS = International Space Station) #ISS #Space #NASA", ?_⟩
  simp [templateShell, String.append_assoc]

lemma baseInfo_contains_light (d : ISSData) :
    ContainsSlot (baseInfoOf d) (lightPhrase d.visibility) := by
  refine ⟨"I\x27m over " ++ coordsOf d ++ " at ~" ++ (jsToFixed d.altitude 0 ++ " km")
      ++ ", moving " ++ (jsToFixed d.velocity 0 ++ " km/h") ++ ". Currently ",
    ".", ?_⟩
  simp [baseInfoOf, String.append_assoc]

lemma createPostMessage_contains_light (d : ISSData) (u : String) (n : DateTime) :
    ContainsSlot (createPostMessage d u n) (lightPhrase d.visibility) := by
  unfold createPostMessage
  rw [templateFor_shell]
  exact containsSlot_trans
    (templateShell_contains_base _ _ _ _) (baseInfo_contains_light d)

lemma imageNote_contains_time (u : String) :
    ContainsSlot (imageNoteOf u)
      ("(TIME=" ++ ((extractTimeParam u).getD "unknown") ++ ")") := by
  refine ⟨"View: NASA GIBS MODIS Terra True Color ", "", ?_⟩
  simp only [imageNoteOf, String.append_assoc, String.append_empty]
  rfl

lemma mem_digits_isDigit {c : Char} (h : c ∈ digitsList) : c.isDigit = true := by
  fin_cases h <;> decide

lemma mem_digits_ne_dot {c : Char} (h : c ∈ digitsList) : (c != '.') = true := by
  fin_cases h <;> decide

lemma jsToFixed_two_shape (x : JsNum) :
    ∃ s t : String, jsToFixed x 2 = s ++ "." ++ t ∧ t.length = 2
      ∧ t.data.all Char.isDigit = true := by
  refine ⟨(if x.micro < 0 then "-" else "")
      ++ natStr ((x.micro.natAbs * 10 ^ 2 + 500000) / 1000000 / 10 ^ 2),
    padLeft 2 ((x.micro.natAbs * 10 ^ 2 + 500000) / 1000000 % 10 ^ 2), ?_, ?_, ?_⟩
  · rw [jsToFixed]
    simp
  · exact padLeft_length (Nat.mod_lt _ (by norm_num)) (by norm_num)
  · rw [List.all_eq_true]
    intro c hc
    exact mem_digits_isDigit (padLeft_mem hc)

lemma jsToFixed_zero_nodot (x : JsNum) :
    (jsToFixed x 0).data.all (fun c => c != '.') = true := by
  have hfix : jsToFixed x 0
      = (if x.micro < 0 then "-" else "")
        ++ natStr ((x.micro.natAbs * 10 ^ 0 + 500000) / 1000000) := by
    rw [jsToFixed]
    simp
  rw [hfix, List.all_eq_true]
  intro c hc
  rw [String.data_append] at hc
  rcases List.mem_append.mp hc with h | h
  · split at h
    · simp at h
      subst h
      decide
    · simp at h
  · exact mem_digits_ne_dot (natChars_mem h)

/-- The end-to-end example instant of the repository's documentation:
2024-06-15T12:00:00Z, a Saturday. -/
def exNow : DateTime := ⟨2024, 6, 15, 12, 0, 0, 0⟩

/-- The end-to-end example telemetry, in micro-units:
latitude 45.123, longitude -122.456, altitude 408.7, velocity 27600.3,
visibility daylight. -/
def exData : ISSData :=
  ⟨⟨45123000⟩, ⟨-122456000⟩, ⟨408700000⟩, ⟨27600300000⟩, "daylight"⟩

/-- A 2xx telemetry body with every required field absent. -/
def emptyRaw : RawTele := ⟨none, none, none, none, none⟩

/-- C1: for every run instant with a well-formed UTC date, the date embedded
in the imagery URL's TIME query parameter is exactly the calendar day
before the run's date (its calendar successor is the run date), the URL is
the fixed query around that date, the URL is independent of the
time-of-day, and rollover across month and year boundaries behaves as in
the January 1 and March 1 examples. -/
theorem C1_imagery_date_yesterday (now : DateTime) (h : ValidDate (dateOf now)) :
    nextDay (predDay (dateOf now)) = dateOf now
    ∧ getMapUrl now = urlPre ++ formatDate (predDay (dateOf now)) ++ urlPost
    ∧ (∀ n2 : DateTime, dateOf n2 = dateOf now → getMapUrl n2 = getMapUrl now)
    ∧ predDay ⟨2024, 1, 1⟩ = ⟨2023, 12, 31⟩
    ∧ predDay ⟨2024, 3, 1⟩ = ⟨2024, 2, 29⟩ := by
  refine ⟨nextDay_predDay h, getMapUrl_eq now, ?_, by decide, by decide⟩
  intro n2 h2
  rw [getMapUrl_eq, getMapUrl_eq, h2]

/-- Witness for C1 at the month/year rollover example 2024-01-01. -/
theorem C1_imagery_date_yesterday_witness :
    ValidDate (dateOf ⟨2024, 1, 1, 0, 0, 0, 0⟩)
    ∧ nextDay (predDay (dateOf ⟨2024, 1, 1, 0, 0, 0, 0⟩))
        = dateOf ⟨2024, 1, 1, 0, 0, 0, 0⟩ :=
  ⟨by decide, (C1_imagery_date_yesterday ⟨2024, 1, 1, 0, 0, 0, 0⟩ (by decide)).1⟩

/-- C2: message composition is a pure, total function of the telemetry
snapshot, the imagery URL, and the run instant: equal inputs give the
identical string (the embedding itself witnesses that no effect or failure
is involved). -/
theorem C2_compose_deterministic (d1 d2 : ISSData) (u1 u2 : String)
    (n1 n2 : DateTime) (hd : d1 = d2) (hu : u1 = u2) (hn : n1 = n2) :
    createPostMessage d1 u1 n1 = createPostMessage d2 u2 n2 := by
  rw [hd, hu, hn]

/-- Witness for C2 at the example inputs. -/
theorem C2_compose_deterministic_witness :
    createPostMessage exData (getMapUrl exNow) exNow
      = createPostMessage exData (getMapUrl exNow) exNow :=
  C2_compose_deterministic exData exData (getMapUrl exNow) (getMapUrl exNow)
    exNow exNow rfl rfl rfl

/-- C3 counterexample: at 2024-06-15T12:00:00.000Z the rendered timestamp
slot is `2024-06-15 12:00:00.000 UTC` — milliseconds included — and not
the seconds-precision `2024-06-15 12:00:00 UTC` the claim requires. -/
theorem C3_timestamp_counterexample :
    formatUtc exNow = "2024-06-15 12:00:00.000 UTC"
    ∧ (formatUtc exNow == "2024-06-15 12:00:00 UTC") = false := by
  constructor
  · decide
  · decide

/-- C3 (amended): the timestamp slot renders as
`YYYY-MM-DD HH:MM:SS.mmm UTC` — the ISO date, a space, the clock time at
millisecond precision, a space, and the literal `UTC`. -/
theorem C3_timestamp_format (t : DateTime) :
    formatUtc t = formatDate (dateOf t) ++ " " ++ isoTime t ++ " UTC" :=
  formatUtc_eq t

/-- C4: the pipeline short-circuits — when the telemetry fetch fails the
image download and the publish step are not invoked, and when the image
download fails the publish step is not invoked. -/
theorem C4_pipeline_short_circuit (teleT : HttpOutcome ISSData)
    (imgT pubT : HttpOutcome Unit) (now : DateTime) :
    ((∃ e, fetchISSData teleT = Except.error e) →
      (mainRun teleT imgT pubT now).imgCalled = false
      ∧ (mainRun teleT imgT pubT now).pubCalled = false)
    ∧ ((∃ e, fetchMapImage (getMapUrl now) imgT = Except.error e) →
      (mainRun teleT imgT pubT now).pubCalled = false) := by
  constructor
  · rintro ⟨e, he⟩
    simp [mainRun, he]
  · rintro ⟨e, he⟩
    unfold mainRun
    cases htele : fetchISSData teleT with
    | error e2 => simp
    | ok data => simp [he]

/-- Witness for C4 with a failing telemetry transport. -/
theorem C4_pipeline_short_circuit_witness :
    (mainRun (HttpOutcome.transportError "connect ETIMEDOUT")
        (HttpOutcome.response 200 ()) (HttpOutcome.response 200 ()) exNow).imgCalled = false
    ∧ (mainRun (HttpOutcome.transportError "connect ETIMEDOUT")
        (HttpOutcome.response 200 ()) (HttpOutcome.response 200 ()) exNow).pubCalled = false :=
  (C4_pipeline_short_circuit (HttpOutcome.transportError "connect ETIMEDOUT")
    (HttpOutcome.response 200 ()) (HttpOutcome.response 200 ()) exNow).1 ⟨_, rfl⟩

/-- C5 counterexample: a 200 response whose JSON body carries none of the
required telemetry fields is returned as a successful snapshot, not
rejected — the fetch performs no payload validation. -/
theorem C5_no_validation_counterexample :
    fetchISSData (HttpOutcome.response 200 emptyRaw) = Except.ok emptyRaw := rfl

/-- C5 (amended): the telemetry fetch fails with the wrapped message
`Failed to fetch ISS data: <cause>` on any transport failure (timeouts
arrive as such causes) and on any non-2xx status, and returns any 2xx
response body exactly as received, without validating its fields. -/
theorem C5_fetch_failure_wrapped (m : String) (s : Nat) (b : RawTele) :
    fetchISSData (HttpOutcome.transportError m : HttpOutcome RawTele)
      = Except.error ("Failed to fetch ISS data: " ++ m)
    ∧ (¬(200 ≤ s ∧ s < 300) → fetchISSData (HttpOutcome.response s b)
        = Except.error ("Failed to fetch ISS data: "
            ++ ("Request failed with status code " ++ natStr s)))
    ∧ ((200 ≤ s ∧ s < 300) → fetchISSData (HttpOutcome.response s b) = Except.ok b) := by
  refine ⟨rfl, ?_, ?_⟩
  · intro h
    simp [fetchISSData, axiosGet, h]
  · intro h
    simp [fetchISSData, axiosGet, h]

/-- Witness for C5 (amended) at statuses 404 and 200. -/
theorem C5_fetch_failure_wrapped_witness :
    fetchISSData (HttpOutcome.response 404 emptyRaw)
      = Except.error ("Failed to fetch ISS data: "
          ++ ("Request failed with status code " ++ natStr 404))
    ∧ fetchISSData (HttpOutcome.response 204 emptyRaw) = Except.ok emptyRaw :=
  ⟨(C5_fetch_failure_wrapped "x" 404 emptyRaw).2.1 (by omega),
   (C5_fetch_failure_wrapped "x" 204 emptyRaw).2.2 (by omega)⟩

/-- C6 counterexample: an imagery download failure surfaces with exactly
the raw transport message — `fetchMapImage` has no handler, so nothing
wraps the cause in a stage-identifying error. -/
theorem C6_imagery_unwrapped_counterexample :
    fetchMapImage (getMapUrl exNow)
        (HttpOutcome.transportError "timeout of 20000ms exceeded" : HttpOutcome Unit)
      = Except.error "timeout of 20000ms exceeded"
    ∧ isWrappedBy "timeout of 20000ms exceeded" "timeout of 20000ms exceeded" = false :=
  ⟨rfl, by decide⟩

/-- C6 (amended): telemetry failures are wrapped as
`Failed to fetch ISS data: <cause>` and publish failures as
`Facebook post failed: <cause>`, but imagery download failures propagate
the underlying cause unwrapped, with no stage tag. -/
theorem C6_stage_error_wrapping (c u : String) :
    fetchISSData (HttpOutcome.transportError c : HttpOutcome RawTele)
      = Except.error ("Failed to fetch ISS data: " ++ c)
    ∧ postToFacebook (HttpOutcome.transportError c)
      = Except.error ("Facebook post failed: " ++ c)
    ∧ fetchMapImage u (HttpOutcome.transportError c : HttpOutcome Unit)
      = Except.error c :=
  ⟨rfl, rfl, rfl⟩

/-- C7: the light-condition phrase in the composed message is the sunlight
phrase exactly when visibility is the literal `daylight`, and the shadow
phrase for every other value; the composed message always carries the
phrase selected from the snapshot's visibility. -/
theorem C7_light_phrase (v : String) (d : ISSData) (u : String) (n : DateTime) :
    (lightPhrase v = "bathed in sunlight ☀️" ↔ v = "daylight")
    ∧ (v ≠ "daylight" → lightPhrase v = "passing through Earth\x27s shadow 🌑")
    ∧ ContainsSlot (createPostMessage d u n) (lightPhrase d.visibility) := by
  refine ⟨⟨?_, ?_⟩, ?_, createPostMessage_contains_light d u n⟩
  · intro h
    by_contra hv
    rw [lightPhrase, if_neg hv] at h
    exact absurd h (by decide)
  · intro h
    rw [lightPhrase, if_pos h]
  · intro h
    rw [lightPhrase, if_neg h]

/-- Witness for C7 at the values `eclipsed` and `daylight`. -/
theorem C7_light_phrase_witness :
    lightPhrase "eclipsed" = "passing through Earth\x27s shadow 🌑"
    ∧ ContainsSlot (createPostMessage exData (getMapUrl exNow) exNow)
        (lightPhrase "daylight") :=
  ⟨(C7_light_phrase "eclipsed" exData (getMapUrl exNow) exNow).2.1 (by decide),
   (C7_light_phrase "eclipsed" exData (getMapUrl exNow) exNow).2.2⟩

/-- C8: every template is the shared structural shell around an optional
flourish; the flourish is present exactly for the seven recognised weekday
names (anything else selects the generic shell without a flourish); and the
composed message is the template keyed to the current weekday name, filled
with the timestamp, telemetry summary, and imagery citation slots. -/
theorem C8_weekday_templates (w utc b note : String) (d : ISSData)
    (u : String) (n : DateTime) :
    templateFor w utc b note = templateShell utc b note (flourishOf w)
    ∧ ((flourishOf w).isSome = true ↔ w ∈ weekdayNames)
    ∧ createPostMessage d u n
        = templateFor (weekdayName (dateOf n)) (formatUtc n) (baseInfoOf d)
            (imageNoteOf u) :=
  ⟨templateFor_shell w utc b note, flourishOf_isSome_iff w, rfl⟩

/-- C9: `toFixed` with 2 digits always yields exactly two digits after the
decimal point and with 0 digits yields no decimal point at all; the
coordinate slot is built from the 2-digit renderings and the
altitude/speed slots from the 0-digit renderings; and at the documented
example telemetry and instant the message contains `45.12°N, -122.46°E`,
`409 km`, `27600 km/h`, and the sunlight phrase. -/
theorem C9_number_formatting :
    (∀ x : JsNum, ∃ s t : String, jsToFixed x 2 = s ++ "." ++ t ∧ t.length = 2
        ∧ t.data.all Char.isDigit = true)
    ∧ (∀ x : JsNum, (jsToFixed x 0).data.all (fun c => c != '.') = true)
    ∧ (∀ d : ISSData, coordsOf d
        = jsToFixed d.latitude 2 ++ "°N, " ++ jsToFixed d.longitude 2 ++ "°E")
    ∧ containsSub (createPostMessage exData (getMapUrl exNow) exNow)
        "45.12°N, -122.46°E" = true
    ∧ containsSub (createPostMessage exData (getMapUrl exNow) exNow)
        "409 km" = true
    ∧ containsSub (createPostMessage exData (getMapUrl exNow) exNow)
        "27600 km/h" = true
    ∧ containsSub (createPostMessage exData (getMapUrl exNow) exNow)
        "bathed in sunlight ☀️" = true := by
  refine ⟨jsToFixed_two_shape, jsToFixed_zero_nodot, fun d => rfl, ?_, ?_, ?_, ?_⟩
  · decide
  · decide
  · decide
  · decide

lemma createPostMessage_contains_time (d : ISSData) (now : DateTime) :
    ContainsSlot (createPostMessage d (getMapUrl now) now)
      ("(TIME=" ++ formatDate (predDay (dateOf now)) ++ ")") := by
  have h1 := imageNote_contains_time (getMapUrl now)
  rw [extractTimeParam_getMapUrl] at h1
  simp only [Option.getD_some] at h1
  unfold createPostMessage
  rw [templateFor_shell]
  exact containsSlot_trans (templateShell_contains_note _ _ _ _) h1

/-- C10: in any run that composes a message, the image was downloaded from
the module-level URL of the run instant, the TIME query parameter of that
URL parses to the embedded yesterday date, and the message's imagery
citation cites exactly that same date — both stages read the same
`MAP_URL` value. -/
theorem C10_time_note_matches_url (teleT : HttpOutcome ISSData)
    (imgT pubT : HttpOutcome Unit) (now : DateTime) (u msg : String)
    (hu : (mainRun teleT imgT pubT now).urlDownloaded = some u)
    (hm : (mainRun teleT imgT pubT now).message = some msg) :
    u = getMapUrl now
    ∧ extractTimeParam u = some (formatDate (predDay (dateOf now)))
    ∧ ContainsSlot msg ("(TIME=" ++ formatDate (predDay (dateOf now)) ++ ")") := by
  unfold mainRun at hu hm
  cases htele : fetchISSData teleT with
  | error e =>
    rw [htele] at hu
    simp at hu
  | ok data =>
    rw [htele] at hu hm
    cases himg : fetchMapImage (getMapUrl now) imgT with
    | error e =>
      rw [himg] at hm
      simp at hm
    | ok p =>
      rw [himg] at hu hm
      cases hpub : postToFacebook pubT with
      | error e =>
        rw [hpub] at hu hm
        simp only [Option.some.injEq] at hu hm
        subst hu
        subst hm
        exact ⟨rfl, extractTimeParam_getMapUrl now,
          createPostMessage_contains_time data now⟩
      | ok r =>
        rw [hpub] at hu hm
        simp only [Option.some.injEq] at hu hm
        subst hu
        subst hm
        exact ⟨rfl, extractTimeParam_getMapUrl now,
          createPostMessage_contains_time data now⟩

/-- Witness for C10 on a fully successful example run. -/
theorem C10_time_note_matches_url_witness :
    getMapUrl exNow = getMapUrl exNow
    ∧ extractTimeParam (getMapUrl exNow)
        = some (formatDate (predDay (dateOf exNow)))
    ∧ ContainsSlot (createPostMessage exData (getMapUrl exNow) exNow)
        ("(TIME=" ++ formatDate (predDay (dateOf exNow)) ++ ")") :=
  C10_time_note_matches_url (HttpOutcome.response 200 exData)
    (HttpOutcome.response 200 ()) (HttpOutcome.response 200 ()) exNow
    (getMapUrl exNow) (createPostMessage exData (getMapUrl exNow) exNow)
    rfl rfl
